import Mathlib

/-! Verification of the CodeEcho analysis-and-generation pipeline.

The repository ships the React frontend (App.jsx, translations.js and
components) together with documentation of the Flask backend.  Frontend
functions are embedded directly from the JavaScript source.  Backend
components (Fetcher, Structural Analyzer, Model Orchestrator, Prompt
Assembler, Session Registry) are not present under the source tree, so
they are modelled from the specification, as marked on each definition.
-/

namespace CodeEcho

/-- A JavaScript-like value, used where the source manipulates
loosely-typed JSON data.  `null` stands for both JS `null` and
`undefined`. -/
inductive JSValue where
  | null
  | str (s : String)
  | num (n : Nat)
  | bool (b : Bool)
  | arr (xs : List String)
deriving DecidableEq, Repr

/-- From App.jsx line 449: the Navigation Complexity badge renders
Complex when `navigation_items > 5` holds and Simple otherwise.  The
field is reached through optional chaining, so a missing count compares
as `undefined > 5`, which is false in JavaScript and yields Simple. -/
def navigationComplexityBadge (navItems : Option Nat) : String :=
  match navItems with
  | some n => if n > 5 then "Complex" else "Simple"
  | none => "Simple"

/-- From translations.js: the `en` table, embedded verbatim. -/
def enTable : List (String × String) :=
  [("title", "CodeEcho"),
   ("subtitle", "AI-powered website analysis with Ollama"),
   ("secureSubtitle", "Secure, local AI processing • 4 specialized models • Comprehensive analysis"),
   ("analyzeTab", "Analyze"),
   ("dashboardTab", "Dashboard"),
   ("historyTab", "History"),
   ("getStarted", "Get Started"),
   ("aiPoweredAnalysis", "AI-Powered Website Analysis"),
   ("reverseEngineer", "Reverse engineer any website"),
   ("generatePrompts", "Generate comprehensive prompts"),
   ("websiteAnalysis", "Website Analysis"),
   ("analysisDescription", "Enter a website URL to extract design patterns, functionality, and generate comprehensive AI prompts"),
   ("urlPlaceholder", "https://example.com"),
   ("analyzeButton", "Analyze Website"),
   ("analyzing", "Analyzing..."),
   ("analysisComplete", "Analysis Complete!"),
   ("downloadResults", "Download Results"),
   ("websiteInfo", "Website Information"),
   ("designAnalysis", "Design Analysis"),
   ("functionalityAnalysis", "Functionality Analysis"),
   ("technicalAnalysis", "Technical Analysis"),
   ("promptPreview", "Prompt Preview"),
   ("fourAiModels", "4 AI Models"),
   ("multiModelDesc", "Llama, Qwen, Mistral, and Gemma working together with automatic failover"),
   ("privateProcessing", "100% Private"),
   ("privateDesc", "All processing happens locally with Ollama. Your data never leaves your environment."),
   ("lightningFast", "Lightning Fast"),
   ("fastDesc", "Optimized model selection for speed and accuracy. Get results in seconds."),
   ("designIntelligence", "Design Intelligence"),
   ("designDesc", "Extract color palettes, typography, layouts, and visual hierarchy patterns."),
   ("errorUrlRequired", "Please enter a valid URL"),
   ("errorAnalysisFailed", "Analysis failed"),
   ("errorConnection", "Failed to connect to the analysis service")]

/-- From translations.js: the `ja` table, embedded verbatim. -/
def jaTable : List (String × String) :=
  [("title", "CodeEcho"),
   ("subtitle", "Ollamaを使用したAI駆動のウェブサイト分析"),
   ("secureSubtitle", "安全なローカルAI処理 • 4つの専門モデル • 包括的な分析"),
   ("analyzeTab", "分析"),
   ("dashboardTab", "ダッシュボード"),
   ("historyTab", "履歴"),
   ("getStarted", "開始する"),
   ("aiPoweredAnalysis", "AI駆動のウェブサイト分析"),
   ("reverseEngineer", "どんなウェブサイトでもリバースエンジニアリング"),
   ("generatePrompts", "包括的なプロンプトを生成"),
   ("websiteAnalysis", "ウェブサイト分析"),
   ("analysisDescription", "ウェブサイトのURLを入力して、デザインパターン、機能を抽出し、包括的なAIプロンプトを生成します"),
   ("urlPlaceholder", "https://example.com"),
   ("analyzeButton", "ウェブサイトを分析"),
   ("analyzing", "分析中..."),
   ("analysisComplete", "分析完了！"),
   ("downloadResults", "結果をダウンロード"),
   ("websiteInfo", "ウェブサイト情報"),
   ("designAnalysis", "デザイン分析"),
   ("functionalityAnalysis", "機能分析"),
   ("technicalAnalysis", "技術分析"),
   ("promptPreview", "プロンプトプレビュー"),
   ("fourAiModels", "4つのAIモデル"),
   ("multiModelDesc", "Llama、Qwen、Mistral、Gemmaが自動フェイルオーバーで連携"),
   ("privateProcessing", "100%プライベート"),
   ("privateDesc", "すべての処理はOllamaでローカルに行われます。データが環境から離れることはありません。"),
   ("lightningFast", "超高速"),
   ("fastDesc", "速度と精度のために最適化されたモデル選択。数秒で結果を取得。"),
   ("designIntelligence", "デザインインテリジェンス"),
   ("designDesc", "カラーパレット、タイポグラフィ、レイアウト、視覚的階層パターンを抽出。"),
   ("errorUrlRequired", "有効なURLを入力してください"),
   ("errorAnalysisFailed", "分析に失敗しました"),
   ("errorConnection", "分析サービスへの接続に失敗しました")]

/-- From translations.js: the exported `translations` object, a map from
language code to translation table. -/
def translations : List (String × List (String × String)) :=
  [("en", enTable), ("ja", jaTable)]

/-- From translations.js lines 96-100:
`useTranslation(language)` returns the lookup closure
`(key) => translations[language]?.[key] || translations.en[key] || key`.
JavaScript `||` falls through on any falsy value, so a translation that
is the empty string would also fall through; the branch structure below
mirrors that.  Optional chaining makes a missing language table yield
`undefined`, which likewise falls through. -/
def useTranslation (language : String) : String → String :=
  fun key =>
    let primary : Option String :=
      match translations.lookup language with
      | some table =>
        match table.lookup key with
        | some v => if v = "" then none else some v
        | none => none
      | none => none
    match primary with
    | some v => v
    | none =>
      match enTable.lookup key with
      | some v => if v = "" then key else v
      | none => key

/-- Modelled from the spec: section 3 PageSnapshot, the immutable record
produced by the Fetcher (the Python Fetcher itself is not in the source
tree).  Fields follow the listed schema; `fetched_at` is an abstract
timestamp. -/
structure PageSnapshot where
  url : String
  final_url : String
  status_code : Nat
  raw_html : String
  rendered_html : Option String
  fetch_strategy_used : String
  fetched_at : Nat
deriving DecidableEq, Repr

/-- Modelled from the spec: section 3 GenerationRequest, one per analysis
section (the Python Orchestrator is not in the source tree). -/
structure GenerationRequest where
  section_name : String
  prompt_template : String
  signal_excerpt : String
  backend_priority_list : List String
deriving DecidableEq, Repr

/-- Modelled from the spec: section 3 GenerationResult.  `backend_used`
is `none` exactly for the terminal synthesized default. -/
structure GenerationResult where
  section_name : String
  text : String
  backend_used : Option String
  attempt_count : Nat
  degraded : Bool
deriving DecidableEq, Repr

/-- Modelled from the spec: section 4.3, the minimal templated fallback
text the Orchestrator synthesizes from the raw signal excerpt once every
backend is exhausted.  The fixed template prefix makes the output
non-empty for every excerpt. -/
def synthesizeFallback (req : GenerationRequest) : String :=
  "Recreate the " ++ req.section_name ++ " of the site based on these observed signals: " ++ req.signal_excerpt

/-- A string that trims to the empty string: every character is
whitespace.  This is the emptiness test the Orchestrator applies to a
backend response (non-empty after trimming). -/
def isBlank (s : String) : Bool :=
  s.data.all Char.isWhitespace

/-- Modelled from the spec: section 4.3 backend walk.  The behavior of
the external text-generation backends is an explicit parameter
`responses` (`none` models a timeout or connection failure; a returned
string is accepted only when non-empty after trimming, that is, not
blank).  `attempts` is the number of backends already tried, which is
also the index of the backend at the head of the remaining list. -/
def generateGo (responses : String → Option String) (req : GenerationRequest) :
    List String → Nat → GenerationResult
  | [], attempts =>
    { section_name := req.section_name
      text := synthesizeFallback req
      backend_used := none
      attempt_count := attempts
      degraded := true }
  | b :: rest, attempts =>
    match responses b with
    | some s =>
      if isBlank s then
        generateGo responses req rest (attempts + 1)
      else
        { section_name := req.section_name
          text := s
          backend_used := some b
          attempt_count := attempts + 1
          degraded := attempts != 0 }
    | none => generateGo responses req rest (attempts + 1)

/-- Modelled from the spec: section 4.3 generate, the Orchestrator entry
point.  Walks `backend_priority_list` in order and falls back to the
synthesized default when the list is exhausted; it is total by
construction, matching the contract that it never fails. -/
def generate (responses : String → Option String) (req : GenerationRequest) : GenerationResult :=
  generateGo responses req req.backend_priority_list 0

/-- Modelled from the spec: section 4.1 and section 7, the two error
kinds the Fetcher can surface. -/
inductive FetchErrorKind where
  | InvalidURL
  | Unreachable
deriving DecidableEq, Repr

/-- Modelled from the spec: the FetchError payload carrying its kind and
a cause string. -/
structure FetchError where
  kind : FetchErrorKind
  cause : String
deriving DecidableEq, Repr

/-- Modelled from the spec: section 4.1 URL constraint, a syntactically
valid absolute URL with an http or https scheme: a scheme prefix
followed by a non-empty host part that does not itself start a path and
contains no space. -/
def isValidHttpUrl (url : String) : Bool :=
  let checkRest (rest : List Char) : Bool :=
    match rest with
    | [] => false
    | c :: _ => c != '/' && !(rest.contains ' ')
  if "http://".data.isPrefixOf url.data then checkRest (url.data.drop 7)
  else if "https://".data.isPrefixOf url.data then checkRest (url.data.drop 8)
  else false

/-- Modelled from the spec: the outcome of one HTTP GET by the
lightweight strategy.  A `response` carries any status code, 2xx or not;
`failure` is a transport-level failure (DNS, connection refused,
timeout). -/
inductive HttpOutcome where
  | response (status : Nat) (body : String)
  | failure (cause : String)
deriving DecidableEq, Repr

/-- Modelled from the spec: the outcome of the rendering-capable
strategy: the final DOM serialization with the raw body and status, or a
failure (timeout, navigation error, environment unavailable). -/
inductive RenderOutcome where
  | rendered (status : Nat) (raw : String) (dom : String)
  | failure (cause : String)
deriving DecidableEq, Repr

/-- Modelled from the spec: section 4.1 fetch.  The two network
strategies are explicit parameters; the second component of the result
is the log of network calls actually performed, so that the absence of
network access is observable.  An invalid URL fails before any call;
otherwise the rendering strategy is tried first, then the HTTP
strategy; a plain response of any status becomes a PageSnapshot; only
when both strategies fail does fetch fail with Unreachable. -/
def fetch (render : String → RenderOutcome) (http : String → HttpOutcome)
    (now : Nat) (url : String) : Except FetchError PageSnapshot × List String :=
  if isValidHttpUrl url then
    match render url with
    | .rendered status raw dom =>
      (.ok { url := url, final_url := url, status_code := status,
             raw_html := raw, rendered_html := some dom,
             fetch_strategy_used := "rendering", fetched_at := now },
       ["render:" ++ url])
    | .failure _ =>
      match http url with
      | .response status body =>
        (.ok { url := url, final_url := url, status_code := status,
               raw_html := body, rendered_html := none,
               fetch_strategy_used := "http", fetched_at := now },
         ["render:" ++ url, "http:" ++ url])
      | .failure cause =>
        (.error { kind := .Unreachable, cause := cause },
         ["render:" ++ url, "http:" ++ url])
  else
    (.error { kind := .InvalidURL, cause := "invalid url" }, [])

/-- Counts the positions of `cs` at which `pat` occurs as a prefix.
Helper for the substring heuristics of the analyzer. -/
def countPrefixOccs (pat : List Char) : List Char → Nat
  | [] => 0
  | c :: rest =>
    (if pat.isPrefixOf (c :: rest) then 1 else 0) + countPrefixOccs pat rest

/-- Number of occurrences of the pattern `pat` in the string `s`
(possibly overlapping; the heuristics only compare counts against
thresholds, so overlap handling is immaterial for them). -/
def countOccs (pat s : String) : Nat :=
  if pat = "" then 0 else countPrefixOccs pat.data s.data

/-- Whether `pat` occurs somewhere in `s`. -/
def containsSub (pat s : String) : Bool :=
  countOccs pat s != 0

/-- Modelled from the spec: section 3 SignalBundle: three mappings of
category name to structured value.  Values are JSValue so that the
invariant that no present key maps to null is a statement, not a
typing artifact (the Python Structural Analyzer is not in the source
tree). -/
structure SignalBundle where
  design_signals : List (String × JSValue)
  functionality_signals : List (String × JSValue)
  technical_signals : List (String × JSValue)
deriving DecidableEq, Repr

/-- Modelled from the spec: section 4.2 palette mood classification into
the enumerated moods, degrading to unknown when no color token is
recognized. -/
def classifyMood (html : String) : String :=
  let colorTokens := countOccs "#" html + countOccs "rgb(" html
  if colorTokens = 0 then "unknown"
  else if colorTokens > 12 then "vibrant"
  else if colorTokens > 4 then "muted"
  else "monochrome"

/-- Modelled from the spec: section 4.2 typography classification
(serif, sans, mixed, unknown). -/
def classifyFont (html : String) : String :=
  let hasSerif := containsSub "serif" html && !(containsSub "sans-serif" html)
  let hasSans := containsSub "sans-serif" html
  if hasSerif && hasSans then "mixed"
  else if hasSans then "sans"
  else if hasSerif then "serif"
  else "unknown"

/-- Modelled from the spec: section 4.2 layout pattern classification
from structural tag density. -/
def classifyLayout (html : String) : String :=
  let divCount := countOccs "<div" html
  if containsSub "grid" html || divCount > 20 then "grid-like"
  else if divCount = 0 && !(containsSub "<section" html) then "unknown"
  else "single-column"

/-- Modelled from the spec: section 4.2 interaction complexity tier from
weighted interactive-element counts against fixed thresholds. -/
def interactionComplexity (buttons links inputs : Nat) : String :=
  let weighted := 3 * buttons + links + 2 * inputs
  if weighted > 40 then "high"
  else if weighted > 10 then "medium"
  else "low"

/-- Modelled from the spec: sections 4.2 and 8, the navigation pattern
classification with the fixed item-count threshold: more than 5 items is
complex, otherwise simple. -/
def navigationPattern (navItems : Nat) : String :=
  if navItems > 5 then "complex" else "simple"

/-- Modelled from the spec: section 4.2 framework fingerprint detection
via presence checks on markup and script references. -/
def detectTechnologies (html : String) : List String :=
  (if containsSub "react" html then ["react"] else []) ++
  (if containsSub "vue" html then ["vue"] else []) ++
  (if containsSub "angular" html then ["angular"] else []) ++
  (if containsSub "jquery" html then ["jquery"] else []) ++
  (if containsSub "bootstrap" html then ["bootstrap"] else []) ++
  (if containsSub "tailwind" html then ["tailwind"] else [])

/-- Modelled from the spec: section 4.2 modern feature tags detected via
presence checks. -/
def detectModernFeatures (html : String) : List String :=
  (if containsSub "viewport" html then ["responsive_design"] else []) ++
  (if containsSub "serviceWorker" html then ["service_worker"] else []) ++
  (if containsSub "<script type=\x22module\x22" html then ["es_modules"] else []) ++
  (if containsSub "loading=\x22lazy\x22" html then ["lazy_loading"] else [])

/-- The HTML the analyzer works on: the rendered DOM when the rendering
strategy produced one, otherwise the raw body. -/
def effectiveHtml (snapshot : PageSnapshot) : String :=
  match snapshot.rendered_html with
  | some dom => dom
  | none => snapshot.raw_html

/-- Modelled from the spec: section 4.2 analyze, the Structural
Analyzer.  A pure total function of the snapshot: its type takes no
clock and no randomness, every heuristic degrades to an explicit
unknown or zero value, and every category key is always present with a
non-null value. -/
def analyze (snapshot : PageSnapshot) : SignalBundle :=
  let html := effectiveHtml snapshot
  let buttons := countOccs "<button" html
  let links := countOccs "<a " html
  let inputs := countOccs "<input" html
  let navItems := countOccs "<li" html
  { design_signals :=
      [("color_mood", .str (classifyMood html)),
       ("font_type", .str (classifyFont html)),
       ("typography_strategy",
        .str (if classifyFont html = "unknown" then "unknown" else "consistent")),
       ("layout_pattern", .str (classifyLayout html))],
    functionality_signals :=
      [("button_count", .num buttons),
       ("link_count", .num links),
       ("input_count", .num inputs),
       ("interaction_complexity", .str (interactionComplexity buttons links inputs)),
       ("navigation_items", .num navItems),
       ("has_search", .bool (containsSub "search" html)),
       ("navigation_pattern", .str (navigationPattern navItems))],
    technical_signals :=
      [("frontend_technologies", .arr (detectTechnologies html)),
       ("modern_features", .arr (detectModernFeatures html))] }

/-- The fixed key list of the design category. -/
def designSignalKeys : List String :=
  ["color_mood", "font_type", "typography_strategy", "layout_pattern"]

/-- The fixed key list of the functionality category. -/
def functionalitySignalKeys : List String :=
  ["button_count", "link_count", "input_count", "interaction_complexity",
   "navigation_items", "has_search", "navigation_pattern"]

/-- The fixed key list of the technical category. -/
def technicalSignalKeys : List String :=
  ["frontend_technologies", "modern_features"]

/-- From App.jsx lines 584-608: the five prompt sections displayed, in
the fixed order of the requirements_summary rendering: design,
functionality, technical, content, user experience.  This is also the
canonical section order of spec section 4.4. -/
def canonicalSectionOrder : List String :=
  ["design", "functionality", "technical", "content", "user_experience"]

/-- Modelled from the spec: section 3 AnalysisRecord, the canonical
merge of one SignalBundle and all GenerationResults keyed by section
name.  `sections` is built by indexing the fixed canonical order, so a
section with no matching result is explicitly absent (`none`) at its
fixed position rather than dropped. -/
structure AnalysisRecord where
  bundle : SignalBundle
  sections : List (String × Option GenerationResult)
deriving DecidableEq, Repr

/-- The first GenerationResult carrying the given section name. -/
def findResult (results : List GenerationResult) (name : String) : Option GenerationResult :=
  results.find? (fun r => r.section_name == name)

/-- Modelled from the spec: section 4.4 assemble.  The record indexes
into the fixed-size canonical order rather than appending results as
they complete, so section ordering never depends on the order of the
result list. -/
def assemble (bundle : SignalBundle) (results : List GenerationResult) : AnalysisRecord :=
  { bundle := bundle,
    sections := canonicalSectionOrder.map (fun n => (n, findResult results n)) }

/-- Modelled from the spec: section 3 Session, the immutable record of
one completed run. -/
structure Session where
  id : String
  analysis_record : AnalysisRecord
  text_rendering : String
  json_rendering : String
  created_at : Nat
deriving DecidableEq, Repr

/-- Modelled from the spec: the session-lookup failure of section 7. -/
inductive RegistryError where
  | NotFound
deriving DecidableEq, Repr

/-- The Session Registry state: the sessions created so far. -/
abbrev SessionStore := List Session

/-- Modelled from the spec: section 4.5 create.  The collision-resistant
random identifier is an explicit parameter `newId` (randomness is
external to the shallow embedding); create stores the new session and
returns its id. -/
def createSession (store : SessionStore) (newId : String) (record : AnalysisRecord)
    (textR jsonR : String) (now : Nat) : SessionStore × String :=
  ({ id := newId, analysis_record := record, text_rendering := textR,
     json_rendering := jsonR, created_at := now } :: store, newId)

/-- Modelled from the spec: section 4.5 get: the stored Session for a
known id, a NotFound failure for an unknown one. -/
def getSession (store : SessionStore) (sid : String) : Except RegistryError Session :=
  match List.find? (fun s => s.id == sid) store with
  | some s => .ok s
  | none => .error .NotFound

/-- Modelled from the spec: section 6 download: an archive (a mapping of
file name to contents) holding the text rendering, the JSON rendering
and the raw analysis data of the session; fails with NotFound when the
session id is unknown. -/
def downloadSession (store : SessionStore) (sid : String) :
    Except RegistryError (List (String × String)) :=
  match getSession store sid with
  | .ok s =>
    .ok [("website_prompt.txt", s.text_rendering),
         ("website_prompt.json", s.json_rendering),
         ("raw_analysis.json", s.json_rendering)]
  | .error e => .error e

/-- One create operation: the generated id together with the record and
the two renderings. -/
structure CreateOp where
  newId : String
  record : AnalysisRecord
  textR : String
  jsonR : String
  now : Nat

/-- Runs a sequence of create operations from the given store, returning
the final store and the list of session ids that create returned. -/
def runCreates (store : SessionStore) : List CreateOp → SessionStore × List String
  | [] => (store, [])
  | op :: rest =>
    let next := createSession store op.newId op.record op.textR op.jsonR op.now
    let tail := runCreates next.1 rest
    (tail.1, next.2 :: tail.2)

/-! ## Helper lemmas -/

lemma synthesizeFallback_ne_empty (req : GenerationRequest) : synthesizeFallback req ≠ "" := by
  intro h
  have hl : (synthesizeFallback req).length = 0 := by rw [h]; rfl
  simp [synthesizeFallback, String.length_append] at hl
  exact absurd hl.1.1.1 (by decide)

lemma ne_empty_of_not_blank {s : String} (h : ¬ isBlank s = true) : s ≠ "" := by
  intro e
  subst e
  exact h (by decide)

lemma generateGo_text_ne_empty (responses : String → Option String)
    (req : GenerationRequest) :
    ∀ (bs : List String) (attempts : Nat),
      (generateGo responses req bs attempts).text ≠ "" ∧
      (generateGo responses req bs attempts).section_name = req.section_name := by
  intro bs
  induction bs with
  | nil =>
    intro attempts
    exact ⟨synthesizeFallback_ne_empty req, rfl⟩
  | cons b rest ih =>
    intro attempts
    unfold generateGo
    cases hr : responses b with
    | none => exact ih (attempts + 1)
    | some s =>
      by_cases he : isBlank s = true
      · simp only [he, if_pos rfl]
        exact ih (attempts + 1)
      · simp only [if_neg he]
        exact ⟨ne_empty_of_not_blank he, trivial⟩

lemma generateGo_all_fail (responses : String → Option String)
    (req : GenerationRequest) :
    ∀ (bs : List String) (attempts : Nat),
      (∀ b ∈ bs, ∀ s, responses b = some s → isBlank s = true) →
      generateGo responses req bs attempts =
        { section_name := req.section_name
          text := synthesizeFallback req
          backend_used := none
          attempt_count := attempts + bs.length
          degraded := true } := by
  intro bs
  induction bs with
  | nil => intro attempts _; simp [generateGo]
  | cons b rest ih =>
    intro attempts h
    unfold generateGo
    cases hr : responses b with
    | none =>
      rw [ih (attempts + 1) (fun x hx => h x (List.mem_cons_of_mem b hx))]
      simp
      omega
    | some s =>
      have he : isBlank s = true := h b (List.mem_cons_self b rest) s hr
      simp only [he, if_pos rfl]
      rw [ih (attempts + 1) (fun x hx => h x (List.mem_cons_of_mem b hx))]
      simp
      omega

/-! ## Claim theorems -/

/-- C1: for every GenerationRequest and every possible backend behavior,
generate returns exactly one GenerationResult for that request (it is a
total function, so it never throws), the result carries the request
section name, and its text is never the empty string: a successful
backend response is accepted only when non-empty after trimming, and
the terminal synthesized default is non-empty by construction. -/
theorem generate_total_nonempty (responses : String → Option String)
    (req : GenerationRequest) :
    (generate responses req).text ≠ "" ∧
    (generate responses req).section_name = req.section_name :=
  generateGo_text_ne_empty responses req req.backend_priority_list 0

/-- C4: from App.jsx line 449, the Navigation Complexity badge uses the
strict threshold greater-than-5 on the navigation item count: a count of
exactly 6 renders Complex, a count of exactly 5 renders Simple, and in
general a count renders Complex exactly when it exceeds 5. -/
theorem navigationComplexityBadge_threshold :
    navigationComplexityBadge (some 6) = "Complex" ∧
    navigationComplexityBadge (some 5) = "Simple" ∧
    ∀ n : Nat, (navigationComplexityBadge (some n) = "Complex" ↔ 5 < n) := by
  refine ⟨rfl, rfl, fun n => ?_⟩
  unfold navigationComplexityBadge
  by_cases h : 5 < n
  · simp [h]
  · simp only [if_neg (by omega : ¬ n > 5)]
    constructor
    · intro he
      exact absurd he (by decide)
    · intro hn
      exact absurd hn h

/-- C5: when every backend in the priority list fails (no response, or a
response that is empty after trimming), generate returns the synthesized
terminal result: degraded is true, backend_used is none, and the text is
the non-empty templated fallback built from the raw signal excerpt of
the request. -/
theorem generate_exhausted_synthesized (responses : String → Option String)
    (req : GenerationRequest)
    (h : ∀ b ∈ req.backend_priority_list, ∀ s, responses b = some s → isBlank s = true) :
    generate responses req =
      { section_name := req.section_name
        text := synthesizeFallback req
        backend_used := none
        attempt_count := req.backend_priority_list.length
        degraded := true } ∧
    synthesizeFallback req ≠ "" := by
  constructor
  · have := generateGo_all_fail responses req req.backend_priority_list 0 h
    simpa [generate] using this
  · exact synthesizeFallback_ne_empty req

/-- Witness for C5: with two backends that both fail to answer for the
design section, generate returns the synthesized fallback result. -/
theorem generate_exhausted_synthesized_witness :
    (∀ b ∈ ["llama3.1:8b", "qwen2.5:7b"], ∀ s : String,
      (fun _ : String => (none : Option String)) b = some s → isBlank s = true) ∧
    generate (fun _ => none)
        { section_name := "design", prompt_template := "template",
          signal_excerpt := "muted palette", backend_priority_list := ["llama3.1:8b", "qwen2.5:7b"] } =
      { section_name := "design"
        text := "Recreate the design of the site based on these observed signals: muted palette"
        backend_used := none
        attempt_count := 2
        degraded := true } := by
  have hfail : ∀ b ∈ ["llama3.1:8b", "qwen2.5:7b"], ∀ s : String,
      (fun _ : String => (none : Option String)) b = some s → isBlank s = true := by
    intro b _ s hs
    cases hs
  refine ⟨hfail, ?_⟩
  have := (generate_exhausted_synthesized (fun _ => none)
    { section_name := "design", prompt_template := "template",
      signal_excerpt := "muted palette", backend_priority_list := ["llama3.1:8b", "qwen2.5:7b"] } hfail).1
  simpa [synthesizeFallback] using this

/-- C6: for every invalid URL (not a syntactically valid absolute URL
with an http or https scheme), fetch fails with a FetchError of kind
InvalidURL and the network-call log is empty: the failure happens before
any network access, whatever the two network strategies would have
answered. -/
theorem fetch_invalid_url_no_network (render : String → RenderOutcome)
    (http : String → HttpOutcome) (now : Nat) (url : String)
    (h : isValidHttpUrl url = false) :
    fetch render http now url =
      (.error { kind := .InvalidURL, cause := "invalid url" }, []) := by
  unfold fetch
  rw [h]
  simp

/-- Witness for C6: the string notaurl is not a valid http or https URL,
and fetching it performs no network call and fails with InvalidURL,
regardless of the transport behavior. -/
theorem fetch_invalid_url_no_network_witness :
    isValidHttpUrl "notaurl" = false ∧
    fetch (fun _ => .failure "unused") (fun _ => .failure "unused") 0 "notaurl" =
      (.error { kind := .InvalidURL, cause := "invalid url" }, []) :=
  ⟨by decide,
   fetch_invalid_url_no_network (fun _ => .failure "unused") (fun _ => .failure "unused")
     0 "notaurl" (by decide)⟩

/-- C7: for a valid URL, every HTTP response the Fetcher receives after
the rendering strategy failed, including non-2xx statuses, is returned
as a PageSnapshot with status_code populated from the response; and the
only error a fetch of a valid URL can produce is Unreachable, which
requires transport-level failures from both strategies. -/
theorem fetch_non2xx_snapshot_errors_transport_only (render : String → RenderOutcome)
    (http : String → HttpOutcome) (now : Nat) (url : String)
    (hv : isValidHttpUrl url = true) :
    (∀ cause status body, render url = .failure cause → http url = .response status body →
      (fetch render http now url).1 =
        .ok { url := url, final_url := url, status_code := status,
              raw_html := body, rendered_html := none,
              fetch_strategy_used := "http", fetched_at := now }) ∧
    (∀ e, (fetch render http now url).1 = .error e →
      e.kind = .Unreachable ∧
      ∃ c₁ c₂, render url = .failure c₁ ∧ http url = .failure c₂) := by
  constructor
  · intro cause status body hr hh
    unfold fetch
    rw [hv, hr, hh]
    rfl
  · intro e he
    unfold fetch at he
    rw [hv] at he
    simp only [if_true] at he
    cases hr : render url with
    | rendered status raw dom =>
      rw [hr] at he
      cases he
    | failure c₁ =>
      rw [hr] at he
      cases hh : http url with
      | response status body =>
        rw [hh] at he
        cases he
      | failure c₂ =>
        rw [hh] at he
        cases he
        exact ⟨rfl, c₁, c₂, rfl, rfl⟩

/-- Witness for C7: for a valid URL whose rendering strategy fails and
whose HTTP strategy answers 404, fetch still returns a PageSnapshot with
status_code 404 via the http strategy. -/
theorem fetch_non2xx_snapshot_witness :
    isValidHttpUrl "http://example.com" = true ∧
    (fetch (fun _ => .failure "timeout") (fun _ => .response 404 "not found")
        7 "http://example.com").1 =
      .ok { url := "http://example.com", final_url := "http://example.com",
            status_code := 404, raw_html := "not found", rendered_html := none,
            fetch_strategy_used := "http", fetched_at := 7 } :=
  ⟨by decide,
   (fetch_non2xx_snapshot_errors_transport_only
      (fun _ => .failure "timeout") (fun _ => .response 404 "not found")
      7 "http://example.com" (by decide)).1 "timeout" 404 "not found" rfl rfl⟩

/-- C2: analyze is a pure total function of the snapshot.  It depends
only on the effective HTML of the snapshot: in particular two snapshots
that render the same markup, even with different fetch timestamps,
produce equal SignalBundles, so repeated calls with the same snapshot
are identical and no wall-clock or randomness enters (the function type
admits neither).  Totality, including on malformed markup, holds by
construction: every heuristic returns an explicit unknown or zero
value. -/
theorem analyze_pure_deterministic (s₁ s₂ : PageSnapshot)
    (h : effectiveHtml s₁ = effectiveHtml s₂) : analyze s₁ = analyze s₂ := by
  unfold analyze
  rw [h]

/-- A fixed snapshot used to instantiate the analyzer claims. -/
def sampleSnapshotAt (t : Nat) : PageSnapshot :=
  { url := "http://a.example", final_url := "http://a.example",
    status_code := 200, raw_html := "<div><button>go</button></div>",
    rendered_html := none, fetch_strategy_used := "http", fetched_at := t }

/-- Witness for C2: two snapshots of the same markup taken at different
wall-clock instants analyze to the same SignalBundle. -/
theorem analyze_pure_deterministic_witness :
    effectiveHtml (sampleSnapshotAt 0) = effectiveHtml (sampleSnapshotAt 12345) ∧
    analyze (sampleSnapshotAt 0) = analyze (sampleSnapshotAt 12345) :=
  ⟨rfl, analyze_pure_deterministic (sampleSnapshotAt 0) (sampleSnapshotAt 12345) rfl⟩

/-- C8: every SignalBundle produced by analyze has the fixed key list in
each category (no key is ever missing), and every key present maps to a
non-null value: absence of information is an explicit unknown string,
zero count or empty list, never null, so consumers need not branch on
key presence. -/
theorem analyze_bundle_keys_nonnull (snapshot : PageSnapshot) :
    ((analyze snapshot).design_signals.map Prod.fst = designSignalKeys ∧
     (analyze snapshot).functionality_signals.map Prod.fst = functionalitySignalKeys ∧
     (analyze snapshot).technical_signals.map Prod.fst = technicalSignalKeys) ∧
    ∀ kv ∈ (analyze snapshot).design_signals ++
            (analyze snapshot).functionality_signals ++
            (analyze snapshot).technical_signals, kv.2 ≠ JSValue.null := by
  refine ⟨⟨rfl, rfl, rfl⟩, ?_⟩
  intro kv hkv
  rw [List.mem_append, List.mem_append] at hkv
  rcases hkv with (hd | hf) | ht
  · simp only [analyze, List.mem_cons, List.not_mem_nil, or_false] at hd
    rcases hd with h | h | h | h <;> rw [h] <;> simp
  · simp only [analyze, List.mem_cons, List.not_mem_nil, or_false] at hf
    rcases hf with h | h | h | h | h | h | h <;> rw [h] <;> simp
  · simp only [analyze, List.mem_cons, List.not_mem_nil, or_false] at ht
    rcases ht with h | h <;> rw [h] <;> simp

/-- Witness for C8: a concrete key of the bundle of a concrete snapshot,
present and mapped to a non-null value. -/
theorem analyze_bundle_keys_nonnull_witness :
    ("color_mood", JSValue.str "unknown") ∈
      (analyze (sampleSnapshotAt 3)).design_signals ++
      (analyze (sampleSnapshotAt 3)).functionality_signals ++
      (analyze (sampleSnapshotAt 3)).technical_signals ∧
    ("color_mood", JSValue.str "unknown").2 ≠ JSValue.null := by
  constructor
  · decide
  · exact (analyze_bundle_keys_nonnull (sampleSnapshotAt 3)).2 _ (by decide)

/-- C3: assemble indexes the fixed canonical section order, so for any
two permutations of the same GenerationResults (any two completion
orders) the assembled records list their sections in the identical fixed
canonical order: design, functionality, technical, content, user
experience. -/
theorem assemble_section_order_commutes (bundle : SignalBundle)
    (rs₁ rs₂ : List GenerationResult) (_h : rs₁.Perm rs₂) :
    (assemble bundle rs₁).sections.map Prod.fst =
      (assemble bundle rs₂).sections.map Prod.fst ∧
    (assemble bundle rs₁).sections.map Prod.fst = canonicalSectionOrder :=
  ⟨rfl, rfl⟩

/-- Witness for C3: two result lists that are permutations of each other
(design completed first in one, user experience first in the other)
assemble with the same canonical section order. -/
theorem assemble_section_order_commutes_witness :
    ([{ section_name := "design", text := "d", backend_used := some "llama", attempt_count := 1, degraded := false },
      { section_name := "user_experience", text := "u", backend_used := some "qwen", attempt_count := 2, degraded := true }] :
        List GenerationResult).Perm
      [{ section_name := "user_experience", text := "u", backend_used := some "qwen", attempt_count := 2, degraded := true },
       { section_name := "design", text := "d", backend_used := some "llama", attempt_count := 1, degraded := false }] ∧
    (assemble { design_signals := [], functionality_signals := [], technical_signals := [] }
        [{ section_name := "design", text := "d", backend_used := some "llama", attempt_count := 1, degraded := false },
         { section_name := "user_experience", text := "u", backend_used := some "qwen", attempt_count := 2, degraded := true }]).sections.map Prod.fst =
      canonicalSectionOrder := by
  constructor
  · exact List.Perm.swap _ _ _
  · exact (assemble_section_order_commutes
      { design_signals := [], functionality_signals := [], technical_signals := [] }
      _ _ (List.Perm.swap _ _ _)).2

lemma runCreates_mem (ops : List CreateOp) :
    ∀ (store : SessionStore) (s : Session), s ∈ (runCreates store ops).1 →
      s ∈ store ∨ s.id ∈ (runCreates store ops).2 := by
  induction ops with
  | nil =>
    intro store s hs
    exact Or.inl hs
  | cons op rest ih =>
    intro store s hs
    have hstep := ih (createSession store op.newId op.record op.textR op.jsonR op.now).1 s hs
    rcases hstep with hmem | hid
    · rcases List.mem_cons.mp hmem with heq | hmem
      · right
        rw [heq]
        exact List.mem_cons_self _ _
      · exact Or.inl hmem
    · right
      exact List.mem_cons_of_mem _ hid

/-- C9: for every sequence of create operations starting from the empty
registry and every session id that create never returned, get fails with
NotFound and download likewise fails with NotFound instead of returning
a Session or an archive. -/
theorem registry_unknown_id_not_found (ops : List CreateOp) (sid : String)
    (h : sid ∉ (runCreates [] ops).2) :
    getSession (runCreates [] ops).1 sid = .error .NotFound ∧
    downloadSession (runCreates [] ops).1 sid = .error .NotFound := by
  have hfind : List.find? (fun s => s.id == sid) (runCreates [] ops).1 = none := by
    rw [List.find?_eq_none]
    intro s hs hbeq
    have hid : s.id = sid := by
      exact of_decide_eq_true hbeq
    rcases runCreates_mem ops [] s hs with hmem | hin
    · cases hmem
    · rw [hid] at hin
      exact h hin
  have hget : getSession (runCreates [] ops).1 sid = .error .NotFound := by
    unfold getSession
    rw [hfind]
  refine ⟨hget, ?_⟩
  unfold downloadSession
  rw [hget]

/-- Witness for C9: after one create returning the id id1, looking up a
different id fails with NotFound on both get and download. -/
theorem registry_unknown_id_not_found_witness :
    ("other" ∉ (runCreates []
      [{ newId := "id1",
         record := { bundle := { design_signals := [], functionality_signals := [],
                                 technical_signals := [] }, sections := [] },
         textR := "text", jsonR := "json", now := 0 }]).2) ∧
    getSession (runCreates []
      [{ newId := "id1",
         record := { bundle := { design_signals := [], functionality_signals := [],
                                 technical_signals := [] }, sections := [] },
         textR := "text", jsonR := "json", now := 0 }]).1 "other" = .error .NotFound := by
  have hnotin : ("other" : String) ∉ (runCreates []
      [{ newId := "id1",
         record := { bundle := { design_signals := [], functionality_signals := [],
                                 technical_signals := [] }, sections := ([] : List (String × Option GenerationResult)) },
         textR := "text", jsonR := "json", now := 0 }] : SessionStore × List String).2 := by
    decide
  exact ⟨hnotin, (registry_unknown_id_not_found _ "other" hnotin).1⟩

lemma lookup_value_ne_empty (l : List (String × String)) (hall : ∀ p ∈ l, p.2 ≠ "") :
    ∀ (key v : String), l.lookup key = some v → v ≠ "" := by
  induction l with
  | nil => intro key v h; cases h
  | cons p rest ih =>
    intro key v h
    obtain ⟨k, val⟩ := p
    simp only [List.lookup] at h
    split at h
    · injection h with hveq
      subst hveq
      exact hall (k, val) (List.mem_cons_self _ _)
    · exact ih (fun q hq => hall q (List.mem_cons_of_mem _ hq)) key v h

lemma enTable_values_ne_empty : ∀ p ∈ enTable, p.2 ≠ "" := by decide

lemma jaTable_values_ne_empty : ∀ p ∈ jaTable, p.2 ≠ "" := by decide

/-- C10: the lookup function returned by useTranslation is total and
follows the fallback chain exactly: the translation of the key in the
given language when the language table exists and holds the key,
otherwise the English translation of the key, otherwise the key string
itself.  In particular it returns a String for every language code and
key, including language codes absent from the translations table, so it
never throws and never produces undefined.  This relies on every
translation value in the shipped tables being non-empty, since the
JavaScript or-chain would also skip an empty-string translation. -/
theorem useTranslation_fallback_chain (language key : String) :
    useTranslation language key =
      (match translations.lookup language with
       | some table =>
         match table.lookup key with
         | some v => v
         | none => (enTable.lookup key).getD key
       | none => (enTable.lookup key).getD key) := by
  unfold useTranslation
  by_cases h1 : language = "en"
  · subst h1
    rw [show translations.lookup "en" = some enTable from rfl]
    cases he : enTable.lookup key with
    | some v => simp [he, lookup_value_ne_empty enTable enTable_values_ne_empty key v he]
    | none => simp [he]
  · by_cases h2 : language = "ja"
    · subst h2
      rw [show translations.lookup "ja" = some jaTable from rfl]
      cases hj : jaTable.lookup key with
      | some v => simp [hj, lookup_value_ne_empty jaTable jaTable_values_ne_empty key v hj]
      | none =>
        cases he : enTable.lookup key with
        | some v => simp [hj, he, lookup_value_ne_empty enTable enTable_values_ne_empty key v he]
        | none => simp [hj, he]
    · have hl : translations.lookup language = none := by
        have e1 : (language == ("en" : String)) = false :=
          beq_eq_false_iff_ne.mpr h1
        have e2 : (language == ("ja" : String)) = false :=
          beq_eq_false_iff_ne.mpr h2
        simp [translations, List.lookup, e1, e2]
      rw [hl]
      cases he : enTable.lookup key with
      | some v => simp [he, lookup_value_ne_empty enTable enTable_values_ne_empty key v he]
      | none => simp [he]

end CodeEcho
